import Mathlib

/-!
Shallow embedding of the probe / classify / remediate logic of the Windows
network troubleshooting suite (network_doctor.py, smart_diagnose.py,
monitor/network_monitor.py, monitor/smart_optimize.py), together with
theorems settling the specification claims about it.

External effects (commands, registry, sockets) are modelled by passing their
observed outcomes in as explicit arguments; real-valued measurements
(milliseconds) are modelled as rationals, and a Python ZeroDivisionError is
modelled by returning `Except.error ()`.
-/

namespace Monitor

/-- Embeds the NetworkStats dataclass of monitor/network_monitor.py.
The timestamp is an opaque tick count. -/
structure NetworkStats where
  timestamp : Nat
  dns_resolve_time : ℚ
  ping_time : ℚ
  http_response_time : ℚ
  tcp_connections : Int
  dns_cache_entries : Int
  arp_cache_entries : Int
  memory_usage_percent : ℚ
  status : String
deriving DecidableEq

/-- Embeds the OptimizationResult dataclass of monitor/network_monitor.py. -/
structure OptimizationResult where
  action : String
  success : Bool
  message : String
  improvement : Option String
deriving DecidableEq

/-- Environment for one measurement pass: the outcomes of the seven probes
invoked by NetworkMonitor.collect_stats. -/
structure Measurements where
  timestamp : Nat
  dns_resolve_time : ℚ
  ping_time : ℚ
  http_response_time : ℚ
  tcp_connections : Int
  dns_cache_entries : Int
  arp_cache_entries : Int
  memory_usage_percent : ℚ

/-- The http_response_time entry of NetworkMonitor.optimization_threshold. -/
def optimization_threshold_http : ℚ := 3000

/-- Embeds NetworkMonitor.measure_dns_resolve_time: the environment supplies
the elapsed time on success and `none` when gethostbyname raised; the probe
then returns -1. -/
def measure_dns_resolve_time (elapsed : Option ℚ) : ℚ :=
  match elapsed with
  | some t => t
  | none => -1

/-- Embeds NetworkMonitor.collect_stats: copies the measured values into a
NetworkStats record and derives its status by the threshold chain
(3000 strict, then 1500 strict, then negative). -/
def collect_stats (m : Measurements) : NetworkStats :=
  { timestamp := m.timestamp
    dns_resolve_time := m.dns_resolve_time
    ping_time := m.ping_time
    http_response_time := m.http_response_time
    tcp_connections := m.tcp_connections
    dns_cache_entries := m.dns_cache_entries
    arp_cache_entries := m.arp_cache_entries
    memory_usage_percent := m.memory_usage_percent
    status :=
      if optimization_threshold_http < m.http_response_time then "缓慢"
      else if 1500 < m.http_response_time then "较慢"
      else if m.http_response_time < 0 then "异常"
      else "正常" }

/-- One append to a collections.deque with maxlen `cap`: the element is
added at the right and elements are evicted from the left while the length
exceeds the capacity. -/
def dequeAppend (cap : Nat) (buf : List α) (x : α) : List α :=
  let b := buf ++ [x]
  b.drop (b.length - cap)

/-- One append to NetworkMonitor.stats_history, a deque with maxlen 100. -/
def stats_history_append (buf : List NetworkStats) (s : NetworkStats) :
    List NetworkStats :=
  dequeAppend 100 buf s

/-- The three shapes of dictionary NetworkMonitor.analyze_performance
returns: trend 数据不足, trend 性能下降 with its http_increase percentage,
and trend 稳定 with the two averages. -/
inductive Trend where
  | insufficient
  | degrading (http_increase : ℚ)
  | stable (avg_http avg_dns : ℚ)
deriving DecidableEq

/-- Sum of the strictly positive entries of a list, as in the generator
expressions `sum(v for v in ... if v > 0)` of analyze_performance. -/
def posSum (l : List ℚ) : ℚ :=
  (l.filter (fun t => 0 < t)).sum

/-- The Python slice `list(history)[-10:]`: the most recent 10 samples
(all of them when fewer are present). -/
def recentWindow (hist : List NetworkStats) : List NetworkStats :=
  hist.drop (hist.length - 10)

/-- The Python slice `list(history)[-20:-10]`: the 10 samples before the
recent window. Nat subtraction matches the clamping of negative slice
indices to 0. -/
def olderWindow (hist : List NetworkStats) : List NetworkStats :=
  (hist.take (hist.length - 10)).drop (hist.length - 20)

/-- `avg_http` of analyze_performance: sum of the positive recent http
times divided by the number of recent samples. -/
def avgHttp (hist : List NetworkStats) : ℚ :=
  posSum ((recentWindow hist).map NetworkStats.http_response_time) /
    (recentWindow hist).length

/-- `avg_dns` of analyze_performance. -/
def avgDns (hist : List NetworkStats) : ℚ :=
  posSum ((recentWindow hist).map NetworkStats.dns_resolve_time) /
    (recentWindow hist).length

/-- `old_avg_http` of analyze_performance. -/
def oldAvgHttp (hist : List NetworkStats) : ℚ :=
  posSum ((olderWindow hist).map NetworkStats.http_response_time) /
    (olderWindow hist).length

/-- Embeds NetworkMonitor.analyze_performance. Each Python float division
is guarded: a zero denominator (or, for the http_increase expression, a
zero old_avg_http) is a ZeroDivisionError, modelled as `Except.error ()`.
The branch order mirrors the source: the length < 2 early return, the
recent averages, the length >= 20 comparison with the 1.5 factor, and the
stable fallback. -/
def analyze_performance (hist : List NetworkStats) : Except Unit Trend :=
  if hist.length < 2 then .ok .insufficient
  else if (recentWindow hist).length = 0 then .error ()
  else if 20 ≤ hist.length then
    if (olderWindow hist).length = 0 then .error ()
    else if oldAvgHttp hist * (3 / 2) < avgHttp hist then
      if oldAvgHttp hist = 0 then .error ()
      else .ok (.degrading ((avgHttp hist - oldAvgHttp hist) / oldAvgHttp hist * 100))
    else .ok (.stable (avgHttp hist) (avgDns hist))
  else .ok (.stable (avgHttp hist) (avgDns hist))

/-- Embeds NetworkOptimizer.clear_arp_cache. The environment supplies the
return code of `netsh interface ip delete arpcache` and, for the fallback
path, of `arp -d *`. -/
def clear_arp_cache (ret : Int) (ret2 : Int) : OptimizationResult :=
  if ret = 0 then
    { action := "清理 ARP 缓存", success := true, message := "ARP 缓存已清理",
      improvement := some "减少网络地址解析延迟" }
  else if ret2 = 0 then
    { action := "清理 ARP 缓存", success := true, message := "ARP 缓存已清理 (备用方法)",
      improvement := none }
  else
    { action := "清理 ARP 缓存", success := false, message := "清理失败，可能需要管理员权限",
      improvement := none }

/-- Whether the first list is an initial segment of the second. -/
def leadsWith : List Char → List Char → Bool
  | [], _ => true
  | _ :: _, [] => false
  | p :: ps, c :: cs => p = c && leadsWith ps cs

/-- Whether the pattern occurs contiguously inside the second list. -/
def containsSeq (pat : List Char) : List Char → Bool
  | [] => leadsWith pat []
  | c :: rest => leadsWith pat (c :: rest) || containsSeq pat rest

/-- Whether a message contains the fallback marker 备用方法. -/
def mentionsFallback (s : String) : Bool :=
  containsSeq "备用方法".toList s.toList

end Monitor

namespace SmartOptimize

/-- Embeds the PerformanceResult dataclass of monitor/smart_optimize.py. -/
structure PerformanceResult where
  dns_time : ℚ
  http_time : ℚ
  ping_time : ℚ
deriving DecidableEq

/-- Environment for one iteration of the run_performance_test loop: the raw
outcomes of measure_dns_time, measure_http_time and measure_ping_time
(-1 for a failed measurement). -/
structure RunSample where
  dns : ℚ
  http : ℚ
  ping : ℚ

/-- One iteration of the run_performance_test loop: each measurement is
appended to its list only when it is strictly positive. -/
def perfStep (acc : List ℚ × List ℚ × List ℚ) (r : RunSample) :
    List ℚ × List ℚ × List ℚ :=
  (if 0 < r.dns then acc.1 ++ [r.dns] else acc.1,
   if 0 < r.http then acc.2.1 ++ [r.http] else acc.2.1,
   if 0 < r.ping then acc.2.2 ++ [r.ping] else acc.2.2)

/-- Embeds run_performance_test of monitor/smart_optimize.py: accumulate
the positive measurements over the runs, then average each list, with -1
when a list stayed empty. -/
def run_performance_test (runs : List RunSample) : PerformanceResult :=
  let acc := runs.foldl perfStep ([], [], [])
  { dns_time := if acc.1 = [] then -1 else acc.1.sum / acc.1.length
    http_time := if acc.2.1 = [] then -1 else acc.2.1.sum / acc.2.1.length
    ping_time := if acc.2.2 = [] then -1 else acc.2.2.sum / acc.2.2.length }

/-- Embeds get_netbios_cache_count of monitor/smart_optimize.py: on a zero
return code it counts the stdout lines containing both angle brackets;
otherwise it returns 0 (the source literally returns 0 here, not -1). -/
def get_netbios_cache_count (ret : Int) (stdout : String) : Int :=
  if ret = 0 then
    ((stdout.splitOn "\n").filter (fun l => l.contains '<' && l.contains '>')).length
  else 0

end SmartOptimize

namespace SmartDiagnose

/-- The three boolean outcomes of run_network_test in smart_diagnose.py. -/
structure ProbeResults where
  ping_ok : Bool
  dns_ok : Bool
  http_ok : Bool
deriving DecidableEq

/-- The user reply to the per-candidate prompt of smart_diagnose:
y (apply), q (abort), anything else (skip). -/
inductive Answer where
  | yes
  | no
  | quit
deriving DecidableEq

/-- Environment for one ProblemInfo candidate inside smart_diagnose: its
detected flag, the reply the user would give when prompted, the outcome its
fix_function would report, and the probe results run_network_test would
observe after that fix. -/
structure CandidateEnv where
  detected : Bool
  answer : Answer
  fixSuccess : Bool
  retest : ProbeResults
deriving DecidableEq

/-- How a smart_diagnose invocation ends: the early return on a healthy
baseline, the user typing q, the no-candidates early return, the resolved
return naming the candidate (by its index in the detected list), and the
fallthrough with generic suggestions. -/
inductive DiagnoseOutcome where
  | networkOk
  | aborted
  | noProblems
  | resolved (idx : Nat)
  | unresolved
deriving DecidableEq

/-- A loop entry ends smart_diagnose successfully: confirmed, fix reported
success, and the http probe of the retest passed. -/
def resolves (c : CandidateEnv) : Bool :=
  c.answer == Answer.yes && c.fixSuccess && c.retest.http_ok

/-- The fix loop of smart_diagnose over the detected candidates, carrying
the index of the current candidate; returns the outcome and the indices of
the candidates whose fix_function was invoked. A skipped candidate and a
failed fix both fall through to the next candidate; a failed fix skips the
retest, exactly as in the source. -/
def fixLoop : Nat → List CandidateEnv → DiagnoseOutcome × List Nat
  | _, [] => (.unresolved, [])
  | i, c :: rest =>
    match c.answer with
    | .quit => (.aborted, [])
    | .no => fixLoop (i + 1) rest
    | .yes =>
      if c.fixSuccess then
        if c.retest.http_ok then (.resolved i, [i])
        else
          let r := fixLoop (i + 1) rest
          (r.1, i :: r.2)
      else
        let r := fixLoop (i + 1) rest
        (r.1, i :: r.2)

/-- Embeds smart_diagnose of smart_diagnose.py: run the baseline probe set,
return at once when its http probe passed, otherwise filter the detected
candidates, return when none was detected, otherwise run the fix loop.
The second component lists the candidates whose remediation was applied. -/
def smart_diagnose (baseline : ProbeResults) (cands : List CandidateEnv) :
    DiagnoseOutcome × List Nat :=
  if baseline.http_ok then (.networkOk, [])
  else
    let detected := cands.filter CandidateEnv.detected
    if detected.isEmpty then (.noProblems, [])
    else fixLoop 0 detected

/-- The proxy-related state of the Internet Settings registry key read by
check_ie_proxy and written by fix_ie_proxy. -/
structure ProxyRegistry where
  proxyEnable : Nat
  proxyServer : String
deriving DecidableEq

/-- Embeds the ProblemInfo dataclass of smart_diagnose.py (its fix_function
callable is modelled separately by fix_ie_proxy acting on the registry). -/
structure ProblemInfo where
  name : String
  detected : Bool
  current_value : String
  description : String
  fix_action : String
deriving DecidableEq

/-- Embeds check_ie_proxy: detected when ProxyEnable is 1 and ProxyServer
is a non-empty string. -/
def check_ie_proxy (reg : ProxyRegistry) : ProblemInfo :=
  { name := "系统代理 (IE/Edge)"
    detected := decide (reg.proxyEnable = 1) && !(reg.proxyServer = "")
    current_value :=
      (if reg.proxyEnable ≠ 0 then "启用" else "禁用") ++ ", 服务器: " ++
        (if reg.proxyServer = "" then "无" else reg.proxyServer)
    description := "系统代理已启用，可能导致浏览器无法联网"
    fix_action := "禁用系统代理" }

/-- Embeds fix_ie_proxy: set ProxyEnable to 0 and report success with its
message. -/
def fix_ie_proxy (reg : ProxyRegistry) : ProxyRegistry × (Bool × String) :=
  ({ reg with proxyEnable := 0 }, (true, "系统代理已禁用"))

end SmartDiagnose

namespace NetworkDoctor

/-- Embeds the DiagnosticStatus enum of network_doctor.py. -/
inductive DiagnosticStatus where
  | ok
  | warning
  | error
  | info
deriving DecidableEq

/-- Embeds the DiagnosticResult dataclass of network_doctor.py. -/
structure DiagnosticResult where
  name : String
  status : DiagnosticStatus
  message : String
  details : Option String
  fix_available : Bool
  fix_command : Option String
deriving DecidableEq

/-- The mutable fields of a NetworkDiagnostics instance. -/
structure DiagnosticsState where
  results : List DiagnosticResult
  issues_found : Nat
deriving DecidableEq

/-- NetworkDiagnostics.__init__: empty result list, zero issue counter. -/
def NetworkDiagnostics.init : DiagnosticsState :=
  { results := [], issues_found := 0 }

/-- Environment for one check of the run_all_diagnostics pass: the
DiagnosticResult the check returns and whether the check incremented
issues_found before returning it. -/
structure CheckOutcome where
  result : DiagnosticResult
  foundIssue : Bool

/-- One iteration of the run_all_diagnostics loop: the check runs (adding
to issues_found when it found an issue) and its result is appended to
self.results. -/
def runCheck (s : DiagnosticsState) (o : CheckOutcome) : DiagnosticsState :=
  { results := s.results ++ [o.result]
    issues_found := s.issues_found + (if o.foundIssue then 1 else 0) }

/-- Embeds NetworkDiagnostics.run_all_diagnostics: iterate the checks over
the current instance state. Neither results nor issues_found is reset. -/
def run_all_diagnostics (s : DiagnosticsState) (outcomes : List CheckOutcome) :
    DiagnosticsState :=
  outcomes.foldl runCheck s

/-- Number of checks of one pass that found an issue. -/
def countIssues (outcomes : List CheckOutcome) : Nat :=
  (outcomes.filter CheckOutcome.foundIssue).length

end NetworkDoctor

/-!  Theorems settling the claims. -/

/-- C1 counterexample: at the boundary value 1500 the claim demands the
degraded status 较慢 (t1 ≤ v with t1 = 1500), but collect_stats classifies
1500 as 正常 because the source compares with strict `>`. -/
theorem C1_counterexample :
    (Monitor.collect_stats ⟨0, 10, 10, 1500, 50, 100, 50, 40⟩).status = "正常" ∧
    ("正常" : String) ≠ "较慢" ∧
    (0 : ℚ) ≤ 1500 ∧ (1500 : ℚ) ≤ 1500 ∧ (1500 : ℚ) < 3000 := by
  decide

/-- C1 (amended): for v ≥ 0 the classifier returns 正常 iff v ≤ 1500,
较慢 iff 1500 < v ≤ 3000, 缓慢 iff v > 3000 (boundaries inclusive on the
better bucket); every negative sentinel yields 异常, never 正常. -/
theorem C1_collect_stats_classification (m : Monitor.Measurements) :
    (0 ≤ m.http_response_time →
      (((Monitor.collect_stats m).status = "正常") ↔ m.http_response_time ≤ 1500) ∧
      (((Monitor.collect_stats m).status = "较慢") ↔
        1500 < m.http_response_time ∧ m.http_response_time ≤ 3000) ∧
      (((Monitor.collect_stats m).status = "缓慢") ↔ 3000 < m.http_response_time)) ∧
    (m.http_response_time < 0 →
      (Monitor.collect_stats m).status = "异常" ∧
      (Monitor.collect_stats m).status ≠ "正常") := by
  have hs : (Monitor.collect_stats m).status =
      if (3000 : ℚ) < m.http_response_time then "缓慢"
      else if 1500 < m.http_response_time then "较慢"
      else if m.http_response_time < 0 then "异常"
      else "正常" := rfl
  rw [hs]
  split_ifs with h1 h2 h3
  · refine ⟨fun h0 => ⟨?_, ?_, ?_⟩, fun hneg => absurd h1 (by linarith)⟩
    · exact ⟨fun h => absurd h (by decide), fun h => absurd h1 (by linarith)⟩
    · exact ⟨fun h => absurd h (by decide), fun h => absurd h1 (by linarith [h.2])⟩
    · simp [h1]
  · refine ⟨fun h0 => ⟨?_, ?_, ?_⟩, fun hneg => absurd h2 (by linarith)⟩
    · exact ⟨fun h => absurd h (by decide), fun h => absurd h2 (by linarith)⟩
    · exact ⟨fun _ => ⟨h2, by linarith⟩, fun _ => rfl⟩
    · exact ⟨fun h => absurd h (by decide), fun h => absurd h h1⟩
  · refine ⟨fun h0 => absurd h3 (by linarith), fun hneg => ⟨rfl, by decide⟩⟩
  · refine ⟨fun h0 => ⟨?_, ?_, ?_⟩, fun hneg => absurd hneg h3⟩
    · exact ⟨fun _ => by linarith [not_lt.mp h2], fun _ => rfl⟩
    · exact ⟨fun h => absurd h (by decide), fun h => absurd h.1 h2⟩
    · exact ⟨fun h => absurd h (by decide), fun h => absurd h h1⟩

/-- C1 witness: a value in the open interval (1500, 3000] classifies 较慢. -/
theorem C1_witness :
    (Monitor.collect_stats ⟨0, 10, 10, 2000, 50, 100, 50, 40⟩).status = "较慢" :=
  ((C1_collect_stats_classification ⟨0, 10, 10, 2000, 50, 100, 50, 40⟩).1
    (by norm_num)).2.1.mpr (by norm_num)

/-- Length of one bounded-deque append: the new length is the old length
plus one, clamped at the capacity. -/
theorem dequeAppend_length (cap : Nat) (buf : List α) (x : α) :
    (Monitor.dequeAppend cap buf x).length = min (buf.length + 1) cap := by
  simp [Monitor.dequeAppend]
  omega

/-- Folding bounded-deque appends keeps exactly the last `cap` elements of
the stream, in order. -/
theorem foldl_dequeAppend (cap : Nat) (xs : List α) :
    ∀ buf : List α, buf.length ≤ cap →
      List.foldl (Monitor.dequeAppend cap) buf xs =
        (buf ++ xs).drop (buf.length + xs.length - cap) := by
  induction xs with
  | nil =>
    intro buf h
    simp [Nat.sub_eq_zero_of_le h]
  | cons x xs ih =>
    intro buf h
    rw [List.foldl_cons, ih (Monitor.dequeAppend cap buf x)
      (by rw [dequeAppend_length]; omega)]
    rw [dequeAppend_length]
    have hd : Monitor.dequeAppend cap buf x = (buf ++ [x]).drop (buf.length + 1 - cap) := by
      simp [Monitor.dequeAppend]
    rw [hd]
    have ha : buf.length + 1 - cap ≤ (buf ++ [x]).length := by simp
    rw [← List.drop_append_of_le_length ha, List.drop_drop]
    rw [List.append_assoc, List.singleton_append]
    congr 1
    simp
    omega

/-- C5: the stats_history buffer (a deque with maxlen 100) never holds more
than 100 samples, and appending 101 samples to an empty buffer leaves
exactly the last 100 in insertion order, the oldest one evicted. -/
theorem C5_history_buffer (xs : List Monitor.NetworkStats) :
    (xs.foldl Monitor.stats_history_append []).length ≤ 100 ∧
    (xs.length = 101 → xs.foldl Monitor.stats_history_append [] = xs.tail) := by
  have hfold : xs.foldl Monitor.stats_history_append [] = xs.drop (xs.length - 100) := by
    have h := foldl_dequeAppend 100 xs ([] : List Monitor.NetworkStats) (by simp)
    simpa using h
  constructor
  · rw [hfold]
    simp [List.length_drop]
    omega
  · intro h
    rw [hfold, h]
    simp [List.drop_one]

/-- C5 witness: 101 appends of a concrete sample leave the last 100. -/
theorem C5_witness :
    (List.replicate 101 (⟨0, 10, 10, 100, 50, 100, 50, 40, "正常"⟩ : Monitor.NetworkStats)).foldl
        Monitor.stats_history_append [] =
      (List.replicate 101 (⟨0, 10, 10, 100, 50, 100, 50, 40, "正常"⟩ : Monitor.NetworkStats)).tail :=
  (C5_history_buffer _).2 (by simp)

/-- The recent window keeps the last up-to-10 samples. -/
theorem recentWindow_length (hist : List Monitor.NetworkStats) :
    (Monitor.recentWindow hist).length = hist.length - (hist.length - 10) := by
  simp [Monitor.recentWindow]

/-- The older window keeps the 10 samples before the recent window. -/
theorem olderWindow_length (hist : List Monitor.NetworkStats) :
    (Monitor.olderWindow hist).length =
      min (hist.length - 10) hist.length - (hist.length - 20) := by
  simp [Monitor.olderWindow]

/-- C3 counterexample: a history of 2 identical healthy samples has fewer
than 20 samples, yet analyze_performance reports the stable verdict, not
insufficient data, because the source only requires 2 samples. -/
theorem C3_counterexample :
    Monitor.analyze_performance
        [⟨0, 100, 10, 100, 50, 100, 50, 40, "正常"⟩, ⟨0, 100, 10, 100, 50, 100, 50, 40, "正常"⟩] ≠
      Except.ok Monitor.Trend.insufficient ∧
    ([⟨0, 100, 10, 100, 50, 100, 50, 40, "正常"⟩,
      ⟨0, 100, 10, 100, 50, 100, 50, 40, "正常"⟩] : List Monitor.NetworkStats).length < 20 := by
  constructor
  · have h : Monitor.analyze_performance
        [⟨0, 100, 10, 100, 50, 100, 50, 40, "正常"⟩, ⟨0, 100, 10, 100, 50, 100, 50, 40, "正常"⟩] =
        .ok (.stable 100 100) := by
      norm_num [Monitor.analyze_performance, Monitor.avgHttp, Monitor.avgDns,
        Monitor.oldAvgHttp, Monitor.recentWindow, Monitor.olderWindow, Monitor.posSum]
    rw [h]
    simp
  · decide

/-- C3 (amended): analyze_performance reports 数据不足 exactly when the
history holds fewer than 2 samples, and a degrading verdict is only ever
produced from at least 20 samples (a stable verdict needs only 2). -/
theorem C3_analyze_thresholds (hist : List Monitor.NetworkStats) :
    (Monitor.analyze_performance hist = .ok .insufficient ↔ hist.length < 2) ∧
    (∀ inc, Monitor.analyze_performance hist = .ok (.degrading inc) →
      20 ≤ hist.length) := by
  unfold Monitor.analyze_performance
  split_ifs with h1 h2 h3 h4 h5 h6
  · exact ⟨⟨fun _ => h1, fun _ => rfl⟩, fun inc h => by simp at h⟩
  · exact ⟨⟨fun h => by simp at h, fun h => absurd h h1⟩, fun inc h => by simp at h⟩
  · exact ⟨⟨fun h => by simp at h, fun h => absurd h h1⟩, fun inc h => by simp at h⟩
  · exact ⟨⟨fun h => by simp at h, fun h => absurd h h1⟩, fun inc h => by simp at h⟩
  · exact ⟨⟨fun h => by simp at h, fun h => absurd h h1⟩, fun inc _ => h3⟩
  · exact ⟨⟨fun h => by simp at h, fun h => absurd h h1⟩, fun inc h => by simp at h⟩
  · exact ⟨⟨fun h => by simp at h, fun h => absurd h h1⟩, fun inc h => by simp at h⟩

/-- C3 witness: a 20-sample history whose recent half doubled the http time
yields the degrading verdict, so 20 ≤ length holds by the theorem. -/
theorem C3_witness :
    20 ≤ (List.replicate 10 (⟨0, 100, 10, 100, 50, 100, 50, 40, "正常"⟩ : Monitor.NetworkStats) ++
      List.replicate 10 (⟨0, 100, 10, 200, 50, 100, 50, 40, "正常"⟩ : Monitor.NetworkStats)).length :=
  (C3_analyze_thresholds _).2 100 (by
    norm_num [Monitor.analyze_performance, Monitor.avgHttp, Monitor.avgDns,
      Monitor.oldAvgHttp, Monitor.recentWindow, Monitor.olderWindow, Monitor.posSum,
      List.replicate])

/-- C10 counterexample: when every sample in the older window carries the
failure sentinel and the recent window has a positive measurement,
old_avg_http is zero, the 1.5-factor comparison still fires, and the
http_increase expression divides by zero (a Python ZeroDivisionError). -/
theorem C10_counterexample :
    Monitor.analyze_performance
        (List.replicate 10 (⟨0, -1, -1, -1, -1, -1, -1, -1, "异常"⟩ : Monitor.NetworkStats) ++
          List.replicate 10 (⟨0, 100, 10, 200, 50, 100, 50, 40, "正常"⟩ : Monitor.NetworkStats)) =
      .error () := by
  norm_num [Monitor.analyze_performance, Monitor.avgHttp, Monitor.avgDns,
    Monitor.oldAvgHttp, Monitor.recentWindow, Monitor.olderWindow, Monitor.posSum,
    List.replicate]

/-- C10 (amended): analyze_performance raises exactly when the history has
at least 20 samples, no sample of the older window has a positive http
time, and some sample of the recent window does; otherwise it returns a
result dictionary without raising. -/
theorem C10_div_by_zero_characterization (hist : List Monitor.NetworkStats) :
    Monitor.analyze_performance hist = .error () ↔
      20 ≤ hist.length ∧
      Monitor.posSum ((Monitor.olderWindow hist).map Monitor.NetworkStats.http_response_time) = 0 ∧
      0 < Monitor.posSum ((Monitor.recentWindow hist).map Monitor.NetworkStats.http_response_time) := by
  have hrl := recentWindow_length hist
  have hol := olderWindow_length hist
  unfold Monitor.analyze_performance
  split_ifs with h1 h2 h3 h4 h5 h6
  · exact ⟨fun h => by simp at h, fun ⟨h20, _, _⟩ => absurd h1 (by omega)⟩
  · exfalso
    rw [hrl] at h2
    omega
  · exfalso
    rw [hol] at h4
    omega
  · have h10 : (Monitor.olderWindow hist).length = 10 := by rw [hol]; omega
    have h10q : ((Monitor.olderWindow hist).length : ℚ) ≠ 0 := by
      rw [h10]; norm_num
    have hrq : (0 : ℚ) < (Monitor.recentWindow hist).length := by
      have : 0 < (Monitor.recentWindow hist).length := by rw [hrl]; omega
      exact_mod_cast this
    refine ⟨fun _ => ⟨h3, ?_, ?_⟩, fun _ => rfl⟩
    · have h6u : Monitor.posSum ((Monitor.olderWindow hist).map
          Monitor.NetworkStats.http_response_time) /
          ((Monitor.olderWindow hist).length : ℚ) = 0 := h6
      exact (div_eq_zero_iff.mp h6u).resolve_right h10q
    · have havg : 0 < Monitor.avgHttp hist := by
        rw [h6] at h5
        simpa using h5
      have hdef : Monitor.avgHttp hist =
          Monitor.posSum ((Monitor.recentWindow hist).map
            Monitor.NetworkStats.http_response_time) /
            ((Monitor.recentWindow hist).length : ℚ) := rfl
      rw [hdef] at havg
      rcases div_pos_iff.mp havg with ⟨hp, _⟩ | ⟨_, hneg⟩
      · exact hp
      · linarith
  · refine ⟨fun h => by simp at h, fun ⟨_, hz, _⟩ => absurd ?_ h6⟩
    show Monitor.oldAvgHttp hist = 0
    unfold Monitor.oldAvgHttp
    rw [hz, zero_div]
  · refine ⟨fun h => by simp at h, fun ⟨h20, hz, hpos⟩ => absurd ?_ h5⟩
    have hzero : Monitor.oldAvgHttp hist = 0 := by
      unfold Monitor.oldAvgHttp
      rw [hz, zero_div]
    rw [hzero, zero_mul]
    have hrq : (0 : ℚ) < (Monitor.recentWindow hist).length := by
      have : 0 < (Monitor.recentWindow hist).length := by rw [hrl]; omega
      exact_mod_cast this
    have hdef : Monitor.avgHttp hist =
        Monitor.posSum ((Monitor.recentWindow hist).map
          Monitor.NetworkStats.http_response_time) /
          ((Monitor.recentWindow hist).length : ℚ) := rfl
    rw [hdef]
    exact div_pos hpos hrq
  · exact ⟨fun h => by simp at h, fun ⟨h20, _, _⟩ => absurd h20 h3⟩

/-- Stepping past a non-resolving candidate preserves the shape of the
resolved-outcome description, shifting positions by one. -/
theorem fixLoop_cons_continue (c : SmartDiagnose.CandidateEnv)
    (rest : List SmartDiagnose.CandidateEnv) (i j : Nat)
    (hcf : SmartDiagnose.resolves c = false)
    (hrec : i + 1 ≤ j ∧ ∃ d, rest[j - (i + 1)]? = some d ∧
      SmartDiagnose.resolves d = true ∧
      ∀ k, k < j - (i + 1) → ∀ d2, rest[k]? = some d2 →
        SmartDiagnose.resolves d2 = false) :
    i ≤ j ∧ ∃ d, (c :: rest)[j - i]? = some d ∧
      SmartDiagnose.resolves d = true ∧
      ∀ k, k < j - i → ∀ d2, (c :: rest)[k]? = some d2 →
        SmartDiagnose.resolves d2 = false := by
  obtain ⟨hij, d, hd, hres, hmin⟩ := hrec
  refine ⟨by omega, d, ?_, hres, ?_⟩
  · have hji : j - i = (j - (i + 1)) + 1 := by omega
    rw [hji]
    simpa using hd
  · intro k hk d2 hd2
    cases k with
    | zero =>
      simp at hd2
      subst hd2
      exact hcf
    | succ k =>
      have hk2 : k < j - (i + 1) := by omega
      exact hmin k hk2 d2 (by simpa using hd2)

/-- When the fix loop reports a resolved candidate, that candidate was
confirmed, its fix succeeded, its retest passed, and no earlier candidate
in the loop did all three. -/
theorem fixLoop_resolved (l : List SmartDiagnose.CandidateEnv) :
    ∀ i j, (SmartDiagnose.fixLoop i l).1 = .resolved j →
      i ≤ j ∧ ∃ c, l[j - i]? = some c ∧ SmartDiagnose.resolves c = true ∧
        ∀ k, k < j - i → ∀ c2, l[k]? = some c2 →
          SmartDiagnose.resolves c2 = false := by
  induction l with
  | nil =>
    intro i j h
    simp [SmartDiagnose.fixLoop] at h
  | cons c rest ih =>
    intro i j h
    cases hans : c.answer with
    | quit => simp [SmartDiagnose.fixLoop, hans] at h
    | no =>
      simp only [SmartDiagnose.fixLoop, hans] at h
      exact fixLoop_cons_continue c rest i j
        (by simp [SmartDiagnose.resolves, hans]) (ih (i + 1) j h)
    | yes =>
      cases hfs : c.fixSuccess with
      | false =>
        simp only [SmartDiagnose.fixLoop, hans, hfs] at h
        exact fixLoop_cons_continue c rest i j
          (by simp [SmartDiagnose.resolves, hans, hfs]) (ih (i + 1) j h)
      | true =>
        cases hok : c.retest.http_ok with
        | false =>
          simp only [SmartDiagnose.fixLoop, hans, hfs, hok] at h
          exact fixLoop_cons_continue c rest i j
            (by simp [SmartDiagnose.resolves, hans, hfs, hok]) (ih (i + 1) j h)
        | true =>
          simp [SmartDiagnose.fixLoop, hans, hfs, hok] at h
          have hji : j = i := by omega
          subst hji
          refine ⟨le_refl j, c, ?_, ?_, ?_⟩
          · simp
          · simp [SmartDiagnose.resolves, hans, hfs, hok]
          · intro k hk
            exact absurd hk (by omega)

/-- When the fix loop exhausts the candidate list, no candidate in it was
confirmed with a successful fix and a passing retest. -/
theorem fixLoop_unresolved_sound (l : List SmartDiagnose.CandidateEnv) :
    ∀ i, (SmartDiagnose.fixLoop i l).1 = .unresolved →
      ∀ c ∈ l, SmartDiagnose.resolves c = false := by
  induction l with
  | nil =>
    intro i _ c hc
    simp at hc
  | cons c rest ih =>
    intro i h d hd
    cases hans : c.answer with
    | quit => simp [SmartDiagnose.fixLoop, hans] at h
    | no =>
      simp only [SmartDiagnose.fixLoop, hans] at h
      rcases List.mem_cons.mp hd with rfl | hd2
      · simp [SmartDiagnose.resolves, hans]
      · exact ih (i + 1) h d hd2
    | yes =>
      cases hfs : c.fixSuccess with
      | false =>
        simp only [SmartDiagnose.fixLoop, hans, hfs] at h
        rcases List.mem_cons.mp hd with rfl | hd2
        · simp [SmartDiagnose.resolves, hans, hfs]
        · exact ih (i + 1) (by simpa using h) d hd2
      | true =>
        cases hok : c.retest.http_ok with
        | false =>
          simp only [SmartDiagnose.fixLoop, hans, hfs, hok] at h
          rcases List.mem_cons.mp hd with rfl | hd2
          · simp [SmartDiagnose.resolves, hans, hfs, hok]
          · exact ih (i + 1) (by simpa using h) d hd2
        | true =>
          simp [SmartDiagnose.fixLoop, hans, hfs, hok] at h

/-- When the user never quits and no candidate is confirmed with a
successful fix and passing retest, the fix loop exhausts the list and the
outcome is unresolved. -/
theorem fixLoop_unresolved_complete (l : List SmartDiagnose.CandidateEnv) :
    ∀ i, (∀ c ∈ l, c.answer ≠ .quit) →
      (∀ c ∈ l, SmartDiagnose.resolves c = false) →
      (SmartDiagnose.fixLoop i l).1 = .unresolved := by
  induction l with
  | nil =>
    intro i _ _
    rfl
  | cons c rest ih =>
    intro i hq hr
    have hqr : ∀ d ∈ rest, d.answer ≠ SmartDiagnose.Answer.quit :=
      fun d hd => hq d (List.mem_cons_of_mem c hd)
    have hrr : ∀ d ∈ rest, SmartDiagnose.resolves d = false :=
      fun d hd => hr d (List.mem_cons_of_mem c hd)
    cases hans : c.answer with
    | quit => exact absurd hans (hq c (List.mem_cons_self c rest))
    | no =>
      simp only [SmartDiagnose.fixLoop, hans]
      exact ih (i + 1) hqr hrr
    | yes =>
      cases hfs : c.fixSuccess with
      | false =>
        simp only [SmartDiagnose.fixLoop, hans, hfs]
        simpa using ih (i + 1) hqr hrr
      | true =>
        cases hok : c.retest.http_ok with
        | false =>
          simp only [SmartDiagnose.fixLoop, hans, hfs, hok]
          simpa using ih (i + 1) hqr hrr
        | true =>
          have := hr c (List.mem_cons_self c rest)
          simp [SmartDiagnose.resolves, hans, hfs, hok] at this

/-- C2: smart_diagnose returns immediately, applying no remediation, when
the baseline http probe already passes; when it reports a resolved
candidate, that candidate is in the detected list, was confirmed, its fix
succeeded and the retest http probe passed, and no earlier detected
candidate did all of that (stop at the first success); when it reports
unresolved, no detected candidate resolved; and when the user never quits,
some candidate is detected, the baseline http probe fails and no candidate
resolves, the report is unresolved with the generic suggestions. -/
theorem C2_smart_diagnose (baseline : SmartDiagnose.ProbeResults)
    (cands : List SmartDiagnose.CandidateEnv) :
    (baseline.http_ok = true →
      SmartDiagnose.smart_diagnose baseline cands = (.networkOk, [])) ∧
    (∀ j, (SmartDiagnose.smart_diagnose baseline cands).1 = .resolved j →
      ∃ c, (cands.filter SmartDiagnose.CandidateEnv.detected)[j]? = some c ∧
        c.detected = true ∧ c.answer = .yes ∧ c.fixSuccess = true ∧
        c.retest.http_ok = true ∧
        ∀ k, k < j → ∀ c2,
          (cands.filter SmartDiagnose.CandidateEnv.detected)[k]? = some c2 →
          SmartDiagnose.resolves c2 = false) ∧
    ((SmartDiagnose.smart_diagnose baseline cands).1 = .unresolved →
      ∀ c ∈ cands.filter SmartDiagnose.CandidateEnv.detected,
        SmartDiagnose.resolves c = false) ∧
    (baseline.http_ok = false →
      cands.filter SmartDiagnose.CandidateEnv.detected ≠ [] →
      (∀ c ∈ cands.filter SmartDiagnose.CandidateEnv.detected, c.answer ≠ .quit) →
      (∀ c ∈ cands.filter SmartDiagnose.CandidateEnv.detected,
        SmartDiagnose.resolves c = false) →
      (SmartDiagnose.smart_diagnose baseline cands).1 = .unresolved) := by
  cases hb : baseline.http_ok with
  | true =>
    refine ⟨fun _ => by simp [SmartDiagnose.smart_diagnose, hb], ?_, ?_, ?_⟩
    · intro j h
      simp [SmartDiagnose.smart_diagnose, hb] at h
    · intro h
      simp [SmartDiagnose.smart_diagnose, hb] at h
    · intro hfalse
      simp at hfalse
  | false =>
    cases hde : (cands.filter SmartDiagnose.CandidateEnv.detected).isEmpty with
    | true =>
      have hnil : cands.filter SmartDiagnose.CandidateEnv.detected = [] :=
        List.isEmpty_iff.mp hde
      refine ⟨fun htrue => by simp at htrue, ?_, ?_, ?_⟩
      · intro j h
        simp [SmartDiagnose.smart_diagnose, hb, hde] at h
      · intro _ c hc
        rw [hnil] at hc
        simp at hc
      · intro _ hne _ _
        exact absurd hnil hne
    | false =>
      have hrun : SmartDiagnose.smart_diagnose baseline cands =
          SmartDiagnose.fixLoop 0 (cands.filter SmartDiagnose.CandidateEnv.detected) := by
        simp [SmartDiagnose.smart_diagnose, hb, hde]
      refine ⟨fun htrue => by simp at htrue, ?_, ?_, ?_⟩
      · intro j h
        rw [hrun] at h
        obtain ⟨-, c, hc, hres, hmin⟩ :=
          fixLoop_resolved (cands.filter SmartDiagnose.CandidateEnv.detected) 0 j h
        rw [Nat.sub_zero] at hc
        have hdet : c.detected = true :=
          (List.mem_filter.mp (List.getElem?_mem hc)).2
        have hres2 := hres
        simp [SmartDiagnose.resolves] at hres2
        refine ⟨c, hc, hdet, hres2.1.1, hres2.1.2, hres2.2, ?_⟩
        intro k hk c2 hc2
        exact hmin k (by omega) c2 hc2
      · intro h
        rw [hrun] at h
        exact fixLoop_unresolved_sound _ 0 h
      · intro _ _ hq hr
        rw [hrun]
        exact fixLoop_unresolved_complete _ 0 hq hr

/-- C2 witness: with a passing baseline the diagnosis stops at once with
no remediation applied. -/
theorem C2_witness :
    SmartDiagnose.smart_diagnose ⟨true, true, true⟩ [] = (.networkOk, []) :=
  (C2_smart_diagnose ⟨true, true, true⟩ []).1 rfl

/-- C4: the claim that every probe returns a negative failure sentinel,
never 0, is violated by get_netbios_cache_count, which returns 0 when the
nbtstat command fails — indistinguishable from a valid empty cache — while
the DNS probe of the same suite does return the -1 sentinel on failure. -/
theorem C4_netbios_probe_returns_zero :
    SmartOptimize.get_netbios_cache_count (-1) "" = 0 ∧
    ¬ SmartOptimize.get_netbios_cache_count (-1) "" < 0 ∧
    Monitor.measure_dns_resolve_time none = -1 ∧
    Monitor.measure_dns_resolve_time none < 0 := by
  refine ⟨by decide, by decide, rfl, by norm_num [Monitor.measure_dns_resolve_time]⟩

/-- C6: whenever the primary ARP-clearing command fails (non-zero return)
and the fallback command succeeds (zero return), the reported
OptimizationResult has success = true and its message carries the
备用方法 fallback marker. -/
theorem C6_clear_arp_cache_fallback (ret ret2 : Int)
    (h1 : ret ≠ 0) (h2 : ret2 = 0) :
    (Monitor.clear_arp_cache ret ret2).success = true ∧
    (Monitor.clear_arp_cache ret ret2).message = "ARP 缓存已清理 (备用方法)" ∧
    Monitor.mentionsFallback (Monitor.clear_arp_cache ret ret2).message = true := by
  have hc : Monitor.clear_arp_cache ret ret2 =
      { action := "清理 ARP 缓存", success := true,
        message := "ARP 缓存已清理 (备用方法)", improvement := none } := by
    simp [Monitor.clear_arp_cache, h1, h2]
  rw [hc]
  exact ⟨rfl, rfl, by decide⟩

/-- C6 witness: primary command returns 1, fallback returns 0. -/
theorem C6_witness :
    (Monitor.clear_arp_cache 1 0).success = true ∧
    (Monitor.clear_arp_cache 1 0).message = "ARP 缓存已清理 (备用方法)" ∧
    Monitor.mentionsFallback (Monitor.clear_arp_cache 1 0).message = true :=
  C6_clear_arp_cache_fallback 1 0 (by decide) rfl

/-- C7: with ProxyEnable = 1 and a non-empty ProxyServer, check_ie_proxy
detects the system-proxy candidate; after fix_ie_proxy sets ProxyEnable to
0, re-running check_ie_proxy on the written registry no longer detects it. -/
theorem C7_proxy_fix_roundtrip (reg : SmartDiagnose.ProxyRegistry)
    (h1 : reg.proxyEnable = 1) (h2 : reg.proxyServer ≠ "") :
    (SmartDiagnose.check_ie_proxy reg).detected = true ∧
    (SmartDiagnose.check_ie_proxy (SmartDiagnose.fix_ie_proxy reg).1).detected = false := by
  constructor
  · simp [SmartDiagnose.check_ie_proxy, h1, h2]
  · simp [SmartDiagnose.check_ie_proxy, SmartDiagnose.fix_ie_proxy]

/-- C7 witness: the scenario proxy server 127.0.0.1:8080 with the proxy
enabled. -/
theorem C7_witness :
    (SmartDiagnose.check_ie_proxy ⟨1, "127.0.0.1:8080"⟩).detected = true ∧
    (SmartDiagnose.check_ie_proxy
      (SmartDiagnose.fix_ie_proxy ⟨1, "127.0.0.1:8080"⟩).1).detected = false :=
  C7_proxy_fix_roundtrip ⟨1, "127.0.0.1:8080"⟩ rfl (by decide)

/-- The measurement loop of run_performance_test accumulates, per metric,
exactly the strictly positive measurements in run order. -/
theorem perf_foldl (runs : List SmartOptimize.RunSample) :
    ∀ acc : List ℚ × List ℚ × List ℚ,
      runs.foldl SmartOptimize.perfStep acc =
        (acc.1 ++ (runs.map SmartOptimize.RunSample.dns).filter (fun t => 0 < t),
         acc.2.1 ++ (runs.map SmartOptimize.RunSample.http).filter (fun t => 0 < t),
         acc.2.2 ++ (runs.map SmartOptimize.RunSample.ping).filter (fun t => 0 < t)) := by
  induction runs with
  | nil =>
    intro acc
    simp
  | cons r rest ih =>
    intro acc
    rw [List.foldl_cons, ih]
    simp only [SmartOptimize.perfStep, List.map_cons, List.filter_cons]
    by_cases hd : (0 : ℚ) < r.dns <;> by_cases hh : (0 : ℚ) < r.http <;>
      by_cases hp : (0 : ℚ) < r.ping <;>
      simp [hd, hh, hp]

/-- A non-empty list of strictly positive rationals has a positive mean. -/
theorem posFilter_mean_pos (l : List ℚ)
    (h : l.filter (fun t => 0 < t) ≠ []) :
    0 < (l.filter (fun t => 0 < t)).sum / ((l.filter (fun t => 0 < t)).length : ℚ) := by
  have hpos : ∀ x ∈ l.filter (fun t => 0 < t), 0 < x := by
    intro x hx
    have := List.of_mem_filter hx
    exact_mod_cast of_decide_eq_true this
  have hsum : 0 < (l.filter (fun t => 0 < t)).sum :=
    List.sum_pos _ hpos h
  have hlen : 0 < ((l.filter (fun t => 0 < t)).length : ℚ) := by
    have : 0 < (l.filter (fun t => 0 < t)).length :=
      List.length_pos.mpr h
    exact_mod_cast this
  exact div_pos hsum hlen

/-- C8: for every non-empty sequence of runs, each metric of the
run_performance_test result is -1 exactly when no run produced a strictly
positive measurement for it, and otherwise is the arithmetic mean of only
the strictly positive measurements — failed runs are excluded from the
average. -/
theorem C8_run_performance_test (runs : List SmartOptimize.RunSample)
    (_hr : 1 ≤ runs.length) :
    ((SmartOptimize.run_performance_test runs).dns_time = -1 ↔
      (runs.map SmartOptimize.RunSample.dns).filter (fun t => 0 < t) = []) ∧
    ((runs.map SmartOptimize.RunSample.dns).filter (fun t => 0 < t) ≠ [] →
      (SmartOptimize.run_performance_test runs).dns_time =
        ((runs.map SmartOptimize.RunSample.dns).filter (fun t => 0 < t)).sum /
          (((runs.map SmartOptimize.RunSample.dns).filter (fun t => 0 < t)).length : ℚ)) ∧
    ((SmartOptimize.run_performance_test runs).http_time = -1 ↔
      (runs.map SmartOptimize.RunSample.http).filter (fun t => 0 < t) = []) ∧
    ((runs.map SmartOptimize.RunSample.http).filter (fun t => 0 < t) ≠ [] →
      (SmartOptimize.run_performance_test runs).http_time =
        ((runs.map SmartOptimize.RunSample.http).filter (fun t => 0 < t)).sum /
          (((runs.map SmartOptimize.RunSample.http).filter (fun t => 0 < t)).length : ℚ)) ∧
    ((SmartOptimize.run_performance_test runs).ping_time = -1 ↔
      (runs.map SmartOptimize.RunSample.ping).filter (fun t => 0 < t) = []) ∧
    ((runs.map SmartOptimize.RunSample.ping).filter (fun t => 0 < t) ≠ [] →
      (SmartOptimize.run_performance_test runs).ping_time =
        ((runs.map SmartOptimize.RunSample.ping).filter (fun t => 0 < t)).sum /
          (((runs.map SmartOptimize.RunSample.ping).filter (fun t => 0 < t)).length : ℚ)) := by
  have hfold := perf_foldl runs ([], [], [])
  have hdns : (SmartOptimize.run_performance_test runs).dns_time =
      (if (runs.map SmartOptimize.RunSample.dns).filter (fun t => 0 < t) = [] then (-1 : ℚ)
       else ((runs.map SmartOptimize.RunSample.dns).filter (fun t => 0 < t)).sum /
         (((runs.map SmartOptimize.RunSample.dns).filter (fun t => 0 < t)).length : ℚ)) := by
    simp [SmartOptimize.run_performance_test, hfold]
  have hhttp : (SmartOptimize.run_performance_test runs).http_time =
      (if (runs.map SmartOptimize.RunSample.http).filter (fun t => 0 < t) = [] then (-1 : ℚ)
       else ((runs.map SmartOptimize.RunSample.http).filter (fun t => 0 < t)).sum /
         (((runs.map SmartOptimize.RunSample.http).filter (fun t => 0 < t)).length : ℚ)) := by
    simp [SmartOptimize.run_performance_test, hfold]
  have hping : (SmartOptimize.run_performance_test runs).ping_time =
      (if (runs.map SmartOptimize.RunSample.ping).filter (fun t => 0 < t) = [] then (-1 : ℚ)
       else ((runs.map SmartOptimize.RunSample.ping).filter (fun t => 0 < t)).sum /
         (((runs.map SmartOptimize.RunSample.ping).filter (fun t => 0 < t)).length : ℚ)) := by
    simp [SmartOptimize.run_performance_test, hfold]
  refine ⟨?_, ?_, ?_, ?_, ?_, ?_⟩
  · rw [hdns]
    split_ifs with he
    · simp [he]
    · simp only [he, iff_false]
      intro hcontra
      have hp := posFilter_mean_pos _ he
      rw [hcontra] at hp
      norm_num at hp
  · intro hne
    rw [hdns, if_neg hne]
  · rw [hhttp]
    split_ifs with he
    · simp [he]
    · simp only [he, iff_false]
      intro hcontra
      have hp := posFilter_mean_pos _ he
      rw [hcontra] at hp
      norm_num at hp
  · intro hne
    rw [hhttp, if_neg hne]
  · rw [hping]
    split_ifs with he
    · simp [he]
    · simp only [he, iff_false]
      intro hcontra
      have hp := posFilter_mean_pos _ he
      rw [hcontra] at hp
      norm_num at hp
  · intro hne
    rw [hping, if_neg hne]

/-- C8 witness: one run with dns = 100 ms, a failed http measurement and
ping = 20 ms gives http_time = -1 while the other metrics average the
single positive value. -/
theorem C8_witness :
    (SmartOptimize.run_performance_test [⟨100, -1, 20⟩]).http_time = -1 :=
  (C8_run_performance_test [⟨100, -1, 20⟩] (by decide)).2.2.1.mpr (by decide)

/-- Running a diagnostics pass appends its results and adds its issue
count; nothing is cleared first. -/
theorem run_all_diagnostics_eq (outcomes : List NetworkDoctor.CheckOutcome) :
    ∀ s : NetworkDoctor.DiagnosticsState,
      NetworkDoctor.run_all_diagnostics s outcomes =
        { results := s.results ++ outcomes.map NetworkDoctor.CheckOutcome.result,
          issues_found := s.issues_found + NetworkDoctor.countIssues outcomes } := by
  induction outcomes with
  | nil =>
    intro s
    simp [NetworkDoctor.run_all_diagnostics, NetworkDoctor.countIssues]
  | cons o rest ih =>
    intro s
    rw [NetworkDoctor.run_all_diagnostics, List.foldl_cons]
    rw [show List.foldl NetworkDoctor.runCheck (NetworkDoctor.runCheck s o) rest =
        NetworkDoctor.run_all_diagnostics (NetworkDoctor.runCheck s o) rest from rfl]
    rw [ih]
    simp only [NetworkDoctor.runCheck, NetworkDoctor.countIssues, List.map_cons,
      List.filter_cons]
    cases hf : o.foundIssue
    · simp [hf]
    · simp [hf]
      omega

/-- C9: issues_found and results accumulate across successive
run_all_diagnostics calls on the same instance; after a second pass the
state still contains the first pass's results and issue count, even when
the second pass found no issues. -/
theorem C9_diagnostics_accumulate (o1 o2 : List NetworkDoctor.CheckOutcome) :
    NetworkDoctor.run_all_diagnostics
        (NetworkDoctor.run_all_diagnostics NetworkDoctor.NetworkDiagnostics.init o1) o2 =
      { results := o1.map NetworkDoctor.CheckOutcome.result ++
          o2.map NetworkDoctor.CheckOutcome.result,
        issues_found := NetworkDoctor.countIssues o1 + NetworkDoctor.countIssues o2 } := by
  rw [run_all_diagnostics_eq o1 NetworkDoctor.NetworkDiagnostics.init,
    run_all_diagnostics_eq o2]
  simp [NetworkDoctor.NetworkDiagnostics.init]

/-- C10 witness: a 20-sample history with an all-sentinel older window and
a positive recent window satisfies the error characterization, so
analyze_performance raises on it. -/
theorem C10_witness :
    Monitor.analyze_performance
        (List.replicate 10 (⟨0, -1, -1, -1, -1, -1, -1, -1, "异常"⟩ : Monitor.NetworkStats) ++
          List.replicate 10 (⟨0, 50, 10, 300, 50, 100, 50, 40, "正常"⟩ : Monitor.NetworkStats)) =
      .error () :=
  (C10_div_by_zero_characterization _).mpr
    ⟨by simp,
     by norm_num [Monitor.olderWindow, Monitor.posSum, List.replicate],
     by norm_num [Monitor.recentWindow, Monitor.posSum, List.replicate]⟩
